import Mathlib

/-!
Verification of the autonomous research agent's cyclic workflow
(`src/ui/lib/research/{types,nodes,graph}.ts`, `src/ui/app/api/research/route.ts`).

The TypeScript nodes are pure functions from a `ResearchState` to a partial
state update, merged by replacement reducers; we embed each node as a Lean
function returning the fully merged state.  Calls to the external
collaborators (the chat model and the web search backend) are modelled by an
`Oracle` of response functions: each node takes the collaborator's response
for that invocation as an argument, so every possible collaborator behaviour
is covered by quantifying over oracles.  JavaScript numbers used for scores
and thresholds are modelled as rationals; the iteration counters as integers.
-/

namespace ResearchAgent

/-- `status` field of `ResearchState` (src/unnamed/part_000, line 59). -/
inductive Status where
  | idle
  | generating_queries
  | searching
  | grading
  | rewriting
  | synthesizing
  | complete
  | error
deriving DecidableEq, Repr

/-- `SearchResult` (src/unnamed/part_000, lines 9-14). -/
structure SearchResult where
  title : String
  url : String
  snippet : String
  content : Option String := none
deriving DecidableEq, Repr

/-- `GradedDocument` (src/unnamed/part_000, lines 16-21). -/
structure GradedDocument where
  document : SearchResult
  relevanceScore : ℚ
  reasoning : String
  isRelevant : Bool
deriving DecidableEq, Repr

/-- `ResearchQuery` (src/unnamed/part_000, lines 23-27). -/
structure ResearchQuery where
  query : String
  iteration : Int
  isRewrite : Bool
deriving DecidableEq, Repr

/-- `ResearchState` (src/unnamed/part_000, lines 33-64). -/
structure ResearchState where
  topic : String
  queries : List ResearchQuery
  currentQueryIndex : Int
  searchResults : List SearchResult
  gradedDocuments : List GradedDocument
  relevantDocuments : List GradedDocument
  iteration : Int
  maxIterations : Int
  needsMoreResearch : Bool
  qualityThreshold : ℚ
  minRelevantDocs : Int
  synthesis : String
  status : Status
  error : Option String := none
  logs : List String
deriving DecidableEq, Repr

/-- `createInitialState` (src/unnamed/part_000, lines 69-86).  The default
`qualityThreshold` 0.6 is the rational 3/5, written `mkRat 3 5` so that it
is a kernel-reducible literal. -/
def createInitialState (topic : String) : ResearchState :=
  { topic := topic
    queries := []
    currentQueryIndex := 0
    searchResults := []
    gradedDocuments := []
    relevantDocuments := []
    iteration := 0
    maxIterations := 3
    needsMoreResearch := true
    qualityThreshold := mkRat 3 5
    minRelevantDocs := 3
    synthesis := ""
    status := Status.idle
    error := none
    logs := ["Starting research on: \"" ++ topic ++ "\""] }

/-- `ResearchConfig` (src/unnamed/part_000, lines 91-96); the unused
`queriesPerIteration` field is omitted. -/
structure ResearchConfig where
  maxIterations : Option Int := none
  qualityThreshold : Option ℚ := none
  minRelevantDocs : Option Int := none
deriving DecidableEq, Repr

/-- Config application of `runResearch` (src/ui/lib/research/graph.ts, lines
148-150) and, identically, of `streamResearch` (lines 170-172):
`if (config?.X) initialState.X = config.X` for each of the three fields.
A supplied numeric value is applied only when truthy, i.e. non-zero. -/
def applyConfig (config : ResearchConfig) (state : ResearchState) : ResearchState :=
  let s1 := match config.maxIterations with
    | some v => if v ≠ 0 then { state with maxIterations := v } else state
    | none => state
  let s2 := match config.qualityThreshold with
    | some v => if v ≠ 0 then { s1 with qualityThreshold := v } else s1
    | none => s1
  match config.minRelevantDocs with
    | some v => if v ≠ 0 then { s2 with minRelevantDocs := v } else s2
    | none => s2

/-- Characters trimmed by JavaScript `String.prototype.trim` (the whitespace
kinds that occur in model responses). -/
def isWhitespace (c : Char) : Bool :=
  c = ' ' || c = '\t' || c = '\n' || c = '\r'

/-- Model of JavaScript `content.split("\n")` (src/ui/lib/research/nodes.ts,
line 65): split at every newline; the empty string yields `[""]`. -/
def splitLinesAux : List Char → List Char → List String
  | [], acc => [String.mk acc.reverse]
  | c :: cs, acc =>
      if c = '\n' then String.mk acc.reverse :: splitLinesAux cs []
      else splitLinesAux cs (c :: acc)

def splitLines (s : String) : List String :=
  splitLinesAux s.data []

/-- Model of JavaScript `q.trim()` (src/ui/lib/research/nodes.ts, line 66):
drop whitespace from both ends. -/
def trimString (s : String) : String :=
  String.mk (((s.data.dropWhile isWhitespace).reverse.dropWhile isWhitespace).reverse)

/-- NODE 1 `generateQueries` (src/ui/lib/research/nodes.ts, lines 31-84).
`content` is the text returned by the LLM collaborator for this call.  The
response is split into lines, trimmed, empty lines dropped, at most 3 kept,
and each becomes a `ResearchQuery` tagged with the current iteration. -/
def generateQueries (state : ResearchState) (content : String) : ResearchState :=
  let isRewrite : Bool := decide (0 < state.iteration)
  let newQueries : List ResearchQuery :=
    ((((splitLines content).map trimString).filter
        (fun q => decide (0 < q.length))).take 3).map
      (fun q => { query := q, iteration := state.iteration, isRewrite := isRewrite })
  { state with
    queries := state.queries ++ newQueries
    status := Status.generating_queries
    logs := state.logs ++
      (("[Iteration " ++ toString (state.iteration + 1) ++ "] Generated " ++
          toString newQueries.length ++
          (if isRewrite then " rewritten" else " initial") ++ " queries:") ::
        newQueries.map (fun q => "  - " ++ q.query)) }

/-- The URL-deduplication of `searchDocuments` (src/ui/lib/research/nodes.ts,
lines 107-110): `allResults.filter((result, index, self) => index ===
self.findIndex((r) => r.url === result.url))`, keeping the first occurrence
of each url. -/
def keepFirstByUrl (l : List SearchResult) : List SearchResult :=
  ((l.enum).filter
      (fun p => decide (l.findIdx (fun r => decide (r.url = p.2.url)) = p.1))).map
    (fun p => p.2)

/-- NODE 2 `searchDocuments` (src/ui/lib/research/nodes.ts, lines 91-120).
`webSearch` is the search backend collaborator.  Results of the current
iteration's queries are concatenated, deduplicated by url within this call
only, and appended to the accumulated `searchResults`. -/
def searchDocuments (state : ResearchState) (webSearch : String → List SearchResult) :
    ResearchState :=
  let currentQueries := state.queries.filter (fun q => decide (q.iteration = state.iteration))
  let allResults := (currentQueries.map (fun q => webSearch q.query)).flatten
  let uniqueResults := keepFirstByUrl allResults
  { state with
    searchResults := state.searchResults ++ uniqueResults
    status := Status.searching
    logs := state.logs ++
      ["Found " ++ toString uniqueResults.length ++ " unique documents from " ++
        toString currentQueries.length ++ " queries"] }

/-- Outcome of one grading call (src/ui/lib/research/nodes.ts, lines 159-187),
at the granularity the `try { ... if (jsonMatch) { ... } } catch { ... }`
block distinguishes:
* `threw` — the model call or `JSON.parse` raised (the `catch` branch);
* `noMatch` — the response contained no JSON object substring, i.e. the
  regex match on the content returned null and the `if (jsonMatch)` body was
  skipped;
* `json score reasoning` — `JSON.parse` succeeded; `score`/`reasoning` are
  the parsed fields, `none` when absent (JavaScript `parsed.score || 0` and
  `parsed.reasoning || "No reasoning provided"` default them; a present 0
  score is also folded to the same 0 by `|| 0`). -/
inductive GradeOutcome where
  | threw
  | noMatch
  | json (score : Option ℚ) (reasoning : Option String)
deriving DecidableEq, Repr

/-- The fallback entry pushed in the `catch` branch (src/ui/lib/research/
nodes.ts, lines 181-186); the fixed score 0.3 is `mkRat 3 10`. -/
def fallbackGrade (doc : SearchResult) : GradedDocument :=
  { document := doc
    relevanceScore := mkRat 3 10
    reasoning := "Failed to grade document"
    isRelevant := false }

/-- What the per-document loop body of `gradeDocuments` pushes for one
document (src/ui/lib/research/nodes.ts, lines 159-187): `none` when nothing
is pushed (the no-JSON-match case). -/
def gradeOne (qualityThreshold : ℚ) (doc : SearchResult) :
    GradeOutcome → Option GradedDocument
  | GradeOutcome.threw => some (fallbackGrade doc)
  | GradeOutcome.noMatch => none
  | GradeOutcome.json score reasoning =>
      some { document := doc
             relevanceScore := min 1 (max 0 (score.getD 0))
             reasoning := reasoning.getD "No reasoning provided"
             isRelevant := decide (qualityThreshold ≤ score.getD 0) }

/-- The `gradedUrls`/`newDocuments` computation of `gradeDocuments`
(src/ui/lib/research/nodes.ts, lines 131-135): the retrieved documents whose
url has no entry in `gradedDocuments` yet. -/
def newDocumentsOf (state : ResearchState) : List SearchResult :=
  let gradedUrls := state.gradedDocuments.map (fun d => d.document.url)
  state.searchResults.filter (fun doc => decide (doc.url ∉ gradedUrls))

/-- The `gradedDocs` list accumulated by the per-document grading loop
(src/ui/lib/research/nodes.ts, lines 144-188): one optional entry per new
document, in order. -/
def gradedBatch (state : ResearchState) (outcome : SearchResult → GradeOutcome) :
    List GradedDocument :=
  (newDocumentsOf state).filterMap
    (fun doc => gradeOne state.qualityThreshold doc (outcome doc))

/-- NODE 3 `gradeDocuments` (src/ui/lib/research/nodes.ts, lines 128-203).
`outcome` gives the grading collaborator's result for each document.  Only
documents whose url is not already in `gradedDocuments` are graded; with no
new documents the node is a status/log no-op. -/
def gradeDocuments (state : ResearchState) (outcome : SearchResult → GradeOutcome) :
    ResearchState :=
  if (newDocumentsOf state).length = 0 then
    { state with
      status := Status.grading
      logs := state.logs ++ ["No new documents to grade"] }
  else
    let gradedDocs := gradedBatch state outcome
    let newRelevant := gradedDocs.filter (fun d => d.isRelevant)
    { state with
      gradedDocuments := state.gradedDocuments ++ gradedDocs
      relevantDocuments := state.relevantDocuments ++ newRelevant
      status := Status.grading
      logs := state.logs ++
        ["Graded " ++ toString gradedDocs.length ++ " documents:",
         "  relevant: " ++ toString newRelevant.length,
         "  not relevant: " ++ toString (gradedDocs.length - newRelevant.length)] }

/-- NODE 4 `decideNext` (src/ui/lib/research/nodes.ts, lines 214-240).
Decision table: sufficiency (`totalRelevant >= minRelevantDocs`) stops, else
budget exhaustion (`iteration >= maxIterations - 1`) stops, else continue
with `iteration` incremented.  The status field is not touched. -/
def decideNext (state : ResearchState) : ResearchState :=
  let totalRelevant : Int := state.relevantDocuments.length
  if totalRelevant ≥ state.minRelevantDocs then
    { state with
      needsMoreResearch := false
      iteration := state.iteration
      logs := state.logs ++
        ["Found " ++ toString totalRelevant ++ " relevant documents (threshold: " ++
          toString state.minRelevantDocs ++ "). Proceeding to synthesis."] }
  else if state.iteration ≥ state.maxIterations - 1 then
    { state with
      needsMoreResearch := false
      iteration := state.iteration
      logs := state.logs ++
        ["Max iterations (" ++ toString state.maxIterations ++ ") reached with only " ++
          toString totalRelevant ++ " relevant docs. Proceeding with available information."] }
  else
    { state with
      needsMoreResearch := true
      iteration := state.iteration + 1
      logs := state.logs ++
        ["Only " ++ toString totalRelevant ++ "/" ++ toString state.minRelevantDocs ++
          " relevant docs found. Rewriting queries for iteration " ++
          toString (state.iteration + 2) ++ "..."] }

/-- NODE 5 `synthesizeResearch` (src/ui/lib/research/nodes.ts, lines
247-306).  `modelText` is the LLM collaborator's synthesis response; the
empty-evidence branch does not use it. -/
def synthesizeResearch (state : ResearchState) (modelText : String) : ResearchState :=
  if state.relevantDocuments.length = 0 then
    { state with
      synthesis := "Unable to find relevant information on this topic. Please try a different research query."
      status := Status.complete
      logs := state.logs ++ ["No relevant documents to synthesize"] }
  else
    { state with
      synthesis := modelText
      status := Status.complete
      logs := state.logs ++
        ["Research synthesis complete",
         "  Total iterations: " ++ toString (state.iteration + 1),
         "  Sources cited: " ++ toString state.relevantDocuments.length] }

/-- The external collaborators' responses, as functions of the state seen by
the node making the call (the prompts are built from that state).  Every
possible behaviour of the hosted model and the search backend is some
`Oracle`. -/
structure Oracle where
  genContent : ResearchState → String
  search : ResearchState → String → List SearchResult
  grade : ResearchState → SearchResult → GradeOutcome
  synthText : ResearchState → String

/-- One generate pass of the compiled graph (src/ui/lib/research/graph.ts,
lines 118-121): generate queries, then search. -/
def stepGen (o : Oracle) (s : ResearchState) : ResearchState :=
  generateQueries s (o.genContent s)

def stepSearch (o : Oracle) (s : ResearchState) : ResearchState :=
  searchDocuments (stepGen o s) (o.search (stepGen o s))

def stepGrade (o : Oracle) (s : ResearchState) : ResearchState :=
  gradeDocuments (stepSearch o s) (o.grade (stepSearch o s))

/-- One full cycle body of the graph: generate → search → grade → decide
(src/ui/lib/research/graph.ts, lines 118-127). -/
def researchStep (o : Oracle) (s : ResearchState) : ResearchState :=
  decideNext (stepGrade o s)

/-- The cyclic execution of the compiled graph (src/ui/lib/research/graph.ts,
lines 124-129): after `decide`, `shouldContinueResearch` loops back to
`generate_queries` when `needsMoreResearch` holds and otherwise proceeds to
`synthesize`, which ends the run.  `fuel` bounds the recursion; the second
component counts query-generation passes. -/
def runAux (o : Oracle) : Nat → ResearchState → Nat → ResearchState × Nat
  | 0, s, n => (s, n)
  | fuel + 1, s, n =>
    if (researchStep o s).needsMoreResearch then
      runAux o fuel (researchStep o s) (n + 1)
    else
      (synthesizeResearch (researchStep o s) (o.synthText (researchStep o s)), n + 1)

/-- `graph.invoke` on an initial state: run the cycle with enough fuel
(`maxIterations` passes always suffice; see `runAux_bound`). -/
def runResearchModel (o : Oracle) (s : ResearchState) : ResearchState × Nat :=
  runAux o (s.maxIterations.toNat + 1) s 0

/-- The sequence of states observed after each node execution (what
`streamResearch`'s update stream exposes, src/ui/lib/research/graph.ts,
lines 163-181). -/
def runTraceAux (o : Oracle) : Nat → ResearchState → List ResearchState
  | 0, _ => []
  | fuel + 1, s =>
    if (researchStep o s).needsMoreResearch then
      stepGen o s :: stepSearch o s :: stepGrade o s :: researchStep o s ::
        runTraceAux o fuel (researchStep o s)
    else
      [stepGen o s, stepSearch o s, stepGrade o s, researchStep o s,
       synthesizeResearch (researchStep o s) (o.synthText (researchStep o s))]

/-- Result of the `POST /api/research` handler's validation prologue:
either an early 400 response or the invocation of the workflow. -/
inductive PostResult (α : Type) where
  | badRequest (msg : String)
  | ok (a : α)
deriving DecidableEq, Repr

/-- Validation gate of the `POST` handler (src/ui/app/api/research/route.ts,
lines 22-41) for a string topic: `!topic` rejects the empty string, then the
two length checks; only when all pass is the workflow entry point invoked on
the topic (`runWorkflow` stands for `runResearch`/`streamResearch`). -/
def postResearch {α : Type} (topic : String) (runWorkflow : String → α) : PostResult α :=
  if topic = "" then PostResult.badRequest "Topic is required and must be a string"
  else if topic.length < 3 then PostResult.badRequest "Topic must be at least 3 characters"
  else if 500 < topic.length then PostResult.badRequest "Topic must be less than 500 characters"
  else PostResult.ok (runWorkflow topic)

/-- The urls of a list of search results. -/
def urlsOf (l : List SearchResult) : List String :=
  l.map (fun d => d.url)

/-- The urls of a list of graded documents. -/
def gradedUrlsOf (l : List GradedDocument) : List String :=
  l.map (fun g => g.document.url)

/-- Grading coverage invariant: every graded document's url comes from
`searchResults`, and every url retrieved so far has exactly one entry in
`gradedDocuments`. -/
def GradeCoverage (s : ResearchState) : Prop :=
  (∀ g ∈ s.gradedDocuments, g.document.url ∈ urlsOf s.searchResults) ∧
  (∀ u ∈ urlsOf s.searchResults, (gradedUrlsOf s.gradedDocuments).count u = 1)

/-- Relevance-subset invariant: every element of `relevantDocuments` has a
matching entry in `gradedDocuments` with identical url and `isRelevant =
true`, is itself marked relevant, and its (clamped) `relevanceScore` is at
least `qualityThreshold`. -/
def RelSub (s : ResearchState) : Prop :=
  ∀ g ∈ s.relevantDocuments,
    (∃ g2 ∈ s.gradedDocuments, g2.document.url = g.document.url ∧ g2.isRelevant = true) ∧
    g.isRelevant = true ∧ s.qualityThreshold ≤ g.relevanceScore

/-- The status transitions the workflow actually performs: the cycle
idle/grading → generating_queries → searching → grading, the decide node
(which leaves the status at `grading`), and the final grading → complete
step of the synthesizer. -/
def statusEdge : Status → Status → Prop
  | Status.idle, Status.generating_queries => True
  | Status.grading, Status.generating_queries => True
  | Status.generating_queries, Status.searching => True
  | Status.searching, Status.grading => True
  | Status.grading, Status.grading => True
  | Status.grading, Status.complete => True
  | _, _ => False

/-! Concrete inputs used as witnesses and counterexamples. -/

def docA : SearchResult := { title := "A", url := "https://a", snippet := "sa" }

def docB : SearchResult := { title := "B", url := "https://b", snippet := "sb" }

def docC : SearchResult := { title := "C", url := "https://c", snippet := "sc" }

/-- Collaborators that return nothing: empty model responses, no search
results, every grading call raising (so graded with the fallback). -/
def oEmpty : Oracle :=
  { genContent := fun _ => ""
    search := fun _ _ => []
    grade := fun _ _ => GradeOutcome.threw
    synthText := fun _ => "" }

/-- Collaborators that return the same single document on every iteration
and grade it 0 (irrelevant). -/
def oDup : Oracle :=
  { genContent := fun _ => "q"
    search := fun _ _ => [docA]
    grade := fun _ _ => GradeOutcome.json (some 0) none
    synthText := fun _ => "" }

/-- Collaborators whose grading response never contains a JSON object. -/
def oNoMatch : Oracle :=
  { genContent := fun _ => "q"
    search := fun _ _ => [docA]
    grade := fun _ _ => GradeOutcome.noMatch
    synthText := fun _ => "" }

/-- Collaborators returning three documents, all graded 0.9 (relevant). -/
def oRich : Oracle :=
  { genContent := fun _ => "q"
    search := fun _ _ => [docA, docB, docC]
    grade := fun _ _ => GradeOutcome.json (some (mkRat 9 10)) (some "good")
    synthText := fun _ => "report" }

/-- A state holding one retrieved, not yet graded document. -/
def sC2 : ResearchState :=
  { createInitialState "abc" with searchResults := [docA] }

/-- A config that explicitly passes `minRelevantDocs = 0`. -/
def cfgZeroMin : ResearchConfig :=
  { maxIterations := none, qualityThreshold := none, minRelevantDocs := some 0 }

/-- A config that explicitly passes zero for all three fields. -/
def cfgAllZero : ResearchConfig :=
  { maxIterations := some 0, qualityThreshold := some 0, minRelevantDocs := some 0 }

/-- An initial state whose `minRelevantDocs` field itself is 0. -/
def sMinZero : ResearchState :=
  { createInitialState "abc" with minRelevantDocs := 0 }

/-! Basic facts about the individual nodes. -/

@[simp] theorem generateQueries_iteration (s : ResearchState) (c : String) :
    (generateQueries s c).iteration = s.iteration := rfl

@[simp] theorem generateQueries_maxIterations (s : ResearchState) (c : String) :
    (generateQueries s c).maxIterations = s.maxIterations := rfl

@[simp] theorem generateQueries_minRelevantDocs (s : ResearchState) (c : String) :
    (generateQueries s c).minRelevantDocs = s.minRelevantDocs := rfl

@[simp] theorem generateQueries_qualityThreshold (s : ResearchState) (c : String) :
    (generateQueries s c).qualityThreshold = s.qualityThreshold := rfl

@[simp] theorem generateQueries_searchResults (s : ResearchState) (c : String) :
    (generateQueries s c).searchResults = s.searchResults := rfl

@[simp] theorem generateQueries_gradedDocuments (s : ResearchState) (c : String) :
    (generateQueries s c).gradedDocuments = s.gradedDocuments := rfl

@[simp] theorem generateQueries_relevantDocuments (s : ResearchState) (c : String) :
    (generateQueries s c).relevantDocuments = s.relevantDocuments := rfl

@[simp] theorem generateQueries_status (s : ResearchState) (c : String) :
    (generateQueries s c).status = Status.generating_queries := rfl

@[simp] theorem searchDocuments_iteration (s : ResearchState) (w : String → List SearchResult) :
    (searchDocuments s w).iteration = s.iteration := rfl

@[simp] theorem searchDocuments_maxIterations (s : ResearchState) (w : String → List SearchResult) :
    (searchDocuments s w).maxIterations = s.maxIterations := rfl

@[simp] theorem searchDocuments_minRelevantDocs (s : ResearchState) (w : String → List SearchResult) :
    (searchDocuments s w).minRelevantDocs = s.minRelevantDocs := rfl

@[simp] theorem searchDocuments_qualityThreshold (s : ResearchState) (w : String → List SearchResult) :
    (searchDocuments s w).qualityThreshold = s.qualityThreshold := rfl

@[simp] theorem searchDocuments_gradedDocuments (s : ResearchState) (w : String → List SearchResult) :
    (searchDocuments s w).gradedDocuments = s.gradedDocuments := rfl

@[simp] theorem searchDocuments_relevantDocuments (s : ResearchState) (w : String → List SearchResult) :
    (searchDocuments s w).relevantDocuments = s.relevantDocuments := rfl

@[simp] theorem searchDocuments_status (s : ResearchState) (w : String → List SearchResult) :
    (searchDocuments s w).status = Status.searching := rfl

theorem searchDocuments_searchResults (s : ResearchState) (w : String → List SearchResult) :
    (searchDocuments s w).searchResults =
      s.searchResults ++
        keepFirstByUrl
          (((s.queries.filter (fun q => decide (q.iteration = s.iteration))).map
              (fun q => w q.query)).flatten) := rfl

@[simp] theorem gradeDocuments_iteration (s : ResearchState) (g : SearchResult → GradeOutcome) :
    (gradeDocuments s g).iteration = s.iteration := by
  simp only [gradeDocuments]
  split <;> rfl

@[simp] theorem gradeDocuments_maxIterations (s : ResearchState) (g : SearchResult → GradeOutcome) :
    (gradeDocuments s g).maxIterations = s.maxIterations := by
  simp only [gradeDocuments]
  split <;> rfl

@[simp] theorem gradeDocuments_minRelevantDocs (s : ResearchState) (g : SearchResult → GradeOutcome) :
    (gradeDocuments s g).minRelevantDocs = s.minRelevantDocs := by
  simp only [gradeDocuments]
  split <;> rfl

@[simp] theorem gradeDocuments_qualityThreshold (s : ResearchState) (g : SearchResult → GradeOutcome) :
    (gradeDocuments s g).qualityThreshold = s.qualityThreshold := by
  simp only [gradeDocuments]
  split <;> rfl

@[simp] theorem gradeDocuments_searchResults (s : ResearchState) (g : SearchResult → GradeOutcome) :
    (gradeDocuments s g).searchResults = s.searchResults := by
  simp only [gradeDocuments]
  split <;> rfl

@[simp] theorem gradeDocuments_status (s : ResearchState) (g : SearchResult → GradeOutcome) :
    (gradeDocuments s g).status = Status.grading := by
  simp only [gradeDocuments]
  split <;> rfl

@[simp] theorem decideNext_status (s : ResearchState) :
    (decideNext s).status = s.status := by
  simp only [decideNext]
  split
  · rfl
  · split <;> rfl

@[simp] theorem decideNext_maxIterations (s : ResearchState) :
    (decideNext s).maxIterations = s.maxIterations := by
  simp only [decideNext]
  split
  · rfl
  · split <;> rfl

@[simp] theorem decideNext_minRelevantDocs (s : ResearchState) :
    (decideNext s).minRelevantDocs = s.minRelevantDocs := by
  simp only [decideNext]
  split
  · rfl
  · split <;> rfl

@[simp] theorem decideNext_qualityThreshold (s : ResearchState) :
    (decideNext s).qualityThreshold = s.qualityThreshold := by
  simp only [decideNext]
  split
  · rfl
  · split <;> rfl

@[simp] theorem decideNext_searchResults (s : ResearchState) :
    (decideNext s).searchResults = s.searchResults := by
  simp only [decideNext]
  split
  · rfl
  · split <;> rfl

@[simp] theorem decideNext_gradedDocuments (s : ResearchState) :
    (decideNext s).gradedDocuments = s.gradedDocuments := by
  simp only [decideNext]
  split
  · rfl
  · split <;> rfl

@[simp] theorem decideNext_relevantDocuments (s : ResearchState) :
    (decideNext s).relevantDocuments = s.relevantDocuments := by
  simp only [decideNext]
  split
  · rfl
  · split <;> rfl

/-- The decision table of `decideNext`: either the continue branch is taken
(insufficient evidence and budget left, `iteration` incremented) or one of
the two stop branches is (`iteration` unchanged). -/
theorem decideNext_cases (s : ResearchState) :
    ((decideNext s).needsMoreResearch = true ∧
      (decideNext s).iteration = s.iteration + 1 ∧
      (s.relevantDocuments.length : Int) < s.minRelevantDocs ∧
      s.iteration < s.maxIterations - 1)
    ∨ ((decideNext s).needsMoreResearch = false ∧
      (decideNext s).iteration = s.iteration ∧
      (s.minRelevantDocs ≤ (s.relevantDocuments.length : Int) ∨
        s.maxIterations - 1 ≤ s.iteration)) := by
  simp only [decideNext]
  split
  · rename_i h1
    right
    exact ⟨rfl, rfl, by omega⟩
  · split
    · rename_i h1 h2
      right
      exact ⟨rfl, rfl, by omega⟩
    · rename_i h1 h2
      left
      exact ⟨rfl, rfl, by omega, by omega⟩

theorem decideNext_needsMore_iff (s : ResearchState) :
    (decideNext s).needsMoreResearch = true ↔
      ((s.relevantDocuments.length : Int) < s.minRelevantDocs ∧
        s.iteration < s.maxIterations - 1) := by
  constructor
  · intro h
    rcases decideNext_cases s with ⟨_, _, h3, h4⟩ | ⟨h1, _, _⟩
    · exact ⟨h3, h4⟩
    · rw [h1] at h
      exact absurd h (by simp)
  · intro hc
    rcases decideNext_cases s with ⟨h1, _, _⟩ | ⟨_, _, h3⟩
    · exact h1
    · omega

theorem decideNext_iteration_of_needsMore (s : ResearchState)
    (h : (decideNext s).needsMoreResearch = true) :
    (decideNext s).iteration = s.iteration + 1 ∧ s.iteration < s.maxIterations - 1 := by
  rcases decideNext_cases s with ⟨_, h2, _, h4⟩ | ⟨h1, _, _⟩
  · exact ⟨h2, h4⟩
  · rw [h1] at h
    exact absurd h (by simp)

theorem decideNext_iteration_of_not_needsMore (s : ResearchState)
    (h : (decideNext s).needsMoreResearch = false) :
    (decideNext s).iteration = s.iteration := by
  rcases decideNext_cases s with ⟨h1, _, _⟩ | ⟨_, h2, _⟩
  · rw [h1] at h
    exact absurd h (by simp)
  · exact h2

@[simp] theorem synthesizeResearch_iteration (s : ResearchState) (t : String) :
    (synthesizeResearch s t).iteration = s.iteration := by
  simp only [synthesizeResearch]
  split <;> rfl

@[simp] theorem synthesizeResearch_maxIterations (s : ResearchState) (t : String) :
    (synthesizeResearch s t).maxIterations = s.maxIterations := by
  simp only [synthesizeResearch]
  split <;> rfl

@[simp] theorem synthesizeResearch_searchResults (s : ResearchState) (t : String) :
    (synthesizeResearch s t).searchResults = s.searchResults := by
  simp only [synthesizeResearch]
  split <;> rfl

@[simp] theorem synthesizeResearch_gradedDocuments (s : ResearchState) (t : String) :
    (synthesizeResearch s t).gradedDocuments = s.gradedDocuments := by
  simp only [synthesizeResearch]
  split <;> rfl

@[simp] theorem synthesizeResearch_relevantDocuments (s : ResearchState) (t : String) :
    (synthesizeResearch s t).relevantDocuments = s.relevantDocuments := by
  simp only [synthesizeResearch]
  split <;> rfl

@[simp] theorem synthesizeResearch_qualityThreshold (s : ResearchState) (t : String) :
    (synthesizeResearch s t).qualityThreshold = s.qualityThreshold := by
  simp only [synthesizeResearch]
  split <;> rfl

@[simp] theorem synthesizeResearch_status (s : ResearchState) (t : String) :
    (synthesizeResearch s t).status = Status.complete := by
  simp only [synthesizeResearch]
  split <;> rfl

/-! Facts about one full cycle body and the fueled run. -/

@[simp] theorem stepGrade_iteration (o : Oracle) (s : ResearchState) :
    (stepGrade o s).iteration = s.iteration := by
  simp [stepGrade, stepSearch, stepGen]

@[simp] theorem stepGrade_maxIterations (o : Oracle) (s : ResearchState) :
    (stepGrade o s).maxIterations = s.maxIterations := by
  simp [stepGrade, stepSearch, stepGen]

@[simp] theorem stepGrade_minRelevantDocs (o : Oracle) (s : ResearchState) :
    (stepGrade o s).minRelevantDocs = s.minRelevantDocs := by
  simp [stepGrade, stepSearch, stepGen]

@[simp] theorem stepGrade_qualityThreshold (o : Oracle) (s : ResearchState) :
    (stepGrade o s).qualityThreshold = s.qualityThreshold := by
  simp [stepGrade, stepSearch, stepGen]

@[simp] theorem researchStep_maxIterations (o : Oracle) (s : ResearchState) :
    (researchStep o s).maxIterations = s.maxIterations := by
  simp [researchStep]

@[simp] theorem researchStep_minRelevantDocs (o : Oracle) (s : ResearchState) :
    (researchStep o s).minRelevantDocs = s.minRelevantDocs := by
  simp [researchStep]

@[simp] theorem researchStep_qualityThreshold (o : Oracle) (s : ResearchState) :
    (researchStep o s).qualityThreshold = s.qualityThreshold := by
  simp [researchStep]

theorem researchStep_of_needsMore (o : Oracle) (s : ResearchState)
    (h : (researchStep o s).needsMoreResearch = true) :
    (researchStep o s).iteration = s.iteration + 1 ∧ s.iteration < s.maxIterations - 1 := by
  have hd := decideNext_iteration_of_needsMore (stepGrade o s) h
  constructor
  · rw [researchStep, hd.1, stepGrade_iteration]
  · have h2 := hd.2
    rw [stepGrade_iteration, stepGrade_maxIterations] at h2
    exact h2

theorem researchStep_of_not_needsMore (o : Oracle) (s : ResearchState)
    (h : (researchStep o s).needsMoreResearch = false) :
    (researchStep o s).iteration = s.iteration := by
  have hd := decideNext_iteration_of_not_needsMore (stepGrade o s) h
  rw [researchStep, hd, stepGrade_iteration]

/-- The fueled loop terminates through the synthesizer whenever `fuel`
exceeds the remaining iteration budget, taking at most one generate pass per
unit of remaining budget plus the final pass, ending with `status =
complete` and without `iteration` ever passing `maxIterations - 1`. -/
theorem runAux_bound (o : Oracle) :
    ∀ (fuel : Nat) (s : ResearchState) (n : Nat),
      (s.maxIterations - 1 - s.iteration).toNat < fuel →
      ((runAux o fuel s n).2 ≤ n + 1 + (s.maxIterations - 1 - s.iteration).toNat ∧
        ((runAux o fuel s n).1.iteration = s.iteration ∨
          (runAux o fuel s n).1.iteration ≤ s.maxIterations - 1) ∧
        (runAux o fuel s n).1.status = Status.complete ∧
        (runAux o fuel s n).1.maxIterations = s.maxIterations) := by
  intro fuel
  induction fuel with
  | zero =>
    intro s n h
    exact absurd h (Nat.not_lt_zero _)
  | succ f ih =>
    intro s n h
    by_cases hm : (researchStep o s).needsMoreResearch = true
    · have hiter := researchStep_of_needsMore o s hm
      have hmax := researchStep_maxIterations o s
      simp only [runAux, hm, if_true]
      have hvar : ((researchStep o s).maxIterations - 1 - (researchStep o s).iteration).toNat
          < f := by
        rw [hmax, hiter.1]
        omega
      have hrec := ih (researchStep o s) (n + 1) hvar
      refine ⟨?_, ?_, hrec.2.2.1, by rw [hrec.2.2.2, hmax]⟩
      · have hp := hrec.1
        rw [hmax, hiter.1] at hp
        omega
      · rcases hrec.2.1 with h1 | h1
        · right
          rw [h1, hiter.1]
          omega
        · right
          rw [hmax] at h1
          exact h1
    · have hb : (researchStep o s).needsMoreResearch = false := by
        simpa using hm
      have hiter := researchStep_of_not_needsMore o s hb
      simp only [runAux, hb, if_false, Bool.false_eq_true]
      refine ⟨by omega, ?_, synthesizeResearch_status _ _, ?_⟩
      · left
        rw [synthesizeResearch_iteration, hiter]
      · rw [synthesizeResearch_maxIterations, researchStep_maxIterations]

/-- Any property preserved by the cycle body and by the synthesizer is an
invariant of the fueled run. -/
theorem runAux_inv (o : Oracle) (P : ResearchState → Prop)
    (hstep : ∀ s, P s → P (researchStep o s))
    (hsynth : ∀ s t, P s → P (synthesizeResearch s t)) :
    ∀ (fuel : Nat) (s : ResearchState) (n : Nat), P s → P (runAux o fuel s n).1 := by
  intro fuel
  induction fuel with
  | zero =>
    intro s n hP
    exact hP
  | succ f ih =>
    intro s n hP
    by_cases hm : (researchStep o s).needsMoreResearch = true
    · simp only [runAux, hm, if_true]
      exact ih (researchStep o s) (n + 1) (hstep s hP)
    · have hb : (researchStep o s).needsMoreResearch = false := by
        simpa using hm
      simp only [runAux, hb, if_false, Bool.false_eq_true]
      exact hsynth _ _ (hstep s hP)

/-! Facts about config application. -/

theorem runAux_succ (o : Oracle) (fuel : Nat) (s : ResearchState) (n : Nat) :
    runAux o (fuel + 1) s n =
      if (researchStep o s).needsMoreResearch then
        runAux o fuel (researchStep o s) (n + 1)
      else
        (synthesizeResearch (researchStep o s) (o.synthText (researchStep o s)), n + 1) := rfl

@[simp] theorem applyConfig_iteration (cfg : ResearchConfig) (s : ResearchState) :
    (applyConfig cfg s).iteration = s.iteration := by
  rcases cfg with ⟨mi, qt, mr⟩
  simp only [applyConfig]
  cases mi <;> cases qt <;> cases mr <;> dsimp only <;> split_ifs <;> rfl

@[simp] theorem applyConfig_status (cfg : ResearchConfig) (s : ResearchState) :
    (applyConfig cfg s).status = s.status := by
  rcases cfg with ⟨mi, qt, mr⟩
  simp only [applyConfig]
  cases mi <;> cases qt <;> cases mr <;> dsimp only <;> split_ifs <;> rfl

@[simp] theorem applyConfig_searchResults (cfg : ResearchConfig) (s : ResearchState) :
    (applyConfig cfg s).searchResults = s.searchResults := by
  rcases cfg with ⟨mi, qt, mr⟩
  simp only [applyConfig]
  cases mi <;> cases qt <;> cases mr <;> dsimp only <;> split_ifs <;> rfl

@[simp] theorem applyConfig_gradedDocuments (cfg : ResearchConfig) (s : ResearchState) :
    (applyConfig cfg s).gradedDocuments = s.gradedDocuments := by
  rcases cfg with ⟨mi, qt, mr⟩
  simp only [applyConfig]
  cases mi <;> cases qt <;> cases mr <;> dsimp only <;> split_ifs <;> rfl

@[simp] theorem applyConfig_relevantDocuments (cfg : ResearchConfig) (s : ResearchState) :
    (applyConfig cfg s).relevantDocuments = s.relevantDocuments := by
  rcases cfg with ⟨mi, qt, mr⟩
  simp only [applyConfig]
  cases mi <;> cases qt <;> cases mr <;> dsimp only <;> split_ifs <;> rfl

/-! The claims. -/

/-- C1: on every run, the number of query-generation passes is at most
`maxIterations` and `iteration` at termination is strictly below
`maxIterations` (for the data model's admissible configurations, i.e.
effective `maxIterations ≥ 1`); moreover `iteration` is changed by no node
other than `decideNext`, and `decideNext` changes it only on its continue
branch, which is taken only when evidence is insufficient and
`iteration < maxIterations - 1`. -/
theorem research_passes_bounded (o : Oracle) (topic : String) (cfg : ResearchConfig)
    (hM : 1 ≤ (applyConfig cfg (createInitialState topic)).maxIterations) :
    (((runResearchModel o (applyConfig cfg (createInitialState topic))).2 : Int) ≤
        (applyConfig cfg (createInitialState topic)).maxIterations ∧
      (runResearchModel o (applyConfig cfg (createInitialState topic))).1.iteration <
        (applyConfig cfg (createInitialState topic)).maxIterations) ∧
    (∀ s c, (generateQueries s c).iteration = s.iteration) ∧
    (∀ s w, (searchDocuments s w).iteration = s.iteration) ∧
    (∀ s g, (gradeDocuments s g).iteration = s.iteration) ∧
    (∀ s t, (synthesizeResearch s t).iteration = s.iteration) ∧
    (∀ s, (decideNext s).iteration ≠ s.iteration →
      (decideNext s).needsMoreResearch = true ∧
      (decideNext s).iteration = s.iteration + 1 ∧
      (s.relevantDocuments.length : Int) < s.minRelevantDocs ∧
      s.iteration < s.maxIterations - 1) := by
  have hit : (applyConfig cfg (createInitialState topic)).iteration = 0 := by
    rw [applyConfig_iteration]
    rfl
  have hfuel :
      ((applyConfig cfg (createInitialState topic)).maxIterations - 1 -
          (applyConfig cfg (createInitialState topic)).iteration).toNat <
        (applyConfig cfg (createInitialState topic)).maxIterations.toNat + 1 := by
    rw [hit]
    omega
  have hrb := runAux_bound o ((applyConfig cfg (createInitialState topic)).maxIterations.toNat + 1)
    (applyConfig cfg (createInitialState topic)) 0 hfuel
  have h1 := hrb.1
  have h2 := hrb.2.1
  rw [hit] at h1 h2
  refine ⟨⟨?_, ?_⟩, generateQueries_iteration, searchDocuments_iteration,
    gradeDocuments_iteration, synthesizeResearch_iteration, ?_⟩
  · simp only [runResearchModel]
    omega
  · simp only [runResearchModel]
    omega
  · intro s hne
    rcases decideNext_cases s with ⟨h1, h2, h3, h4⟩ | ⟨_, h2, _⟩
    · exact ⟨h1, h2, h3, h4⟩
    · exact absurd h2 hne

/-- Witness for C1 at the default configuration with collaborators that
return nothing. -/
theorem research_passes_bounded_witness :
    1 ≤ (applyConfig { } (createInitialState "abc")).maxIterations ∧
    ((runResearchModel oEmpty (applyConfig { } (createInitialState "abc"))).2 : Int) ≤
      (applyConfig { } (createInitialState "abc")).maxIterations :=
  ⟨by decide, (research_passes_bounded oEmpty "abc" { } (by decide)).1.1⟩

theorem applyConfig_maxIterations_of_zero (cfg : ResearchConfig) (s : ResearchState)
    (h : cfg.maxIterations = some 0) :
    (applyConfig cfg s).maxIterations = s.maxIterations := by
  rcases cfg with ⟨mi, qt, mr⟩
  cases h
  simp only [applyConfig]
  cases qt <;> cases mr <;> dsimp only <;> split_ifs <;> simp_all

theorem applyConfig_qualityThreshold_of_zero (cfg : ResearchConfig) (s : ResearchState)
    (h : cfg.qualityThreshold = some 0) :
    (applyConfig cfg s).qualityThreshold = s.qualityThreshold := by
  rcases cfg with ⟨mi, qt, mr⟩
  cases h
  simp only [applyConfig]
  cases mi <;> cases mr <;> dsimp only <;> split_ifs <;> simp_all

theorem applyConfig_minRelevantDocs_of_zero (cfg : ResearchConfig) (s : ResearchState)
    (h : cfg.minRelevantDocs = some 0) :
    (applyConfig cfg s).minRelevantDocs = s.minRelevantDocs := by
  rcases cfg with ⟨mi, qt, mr⟩
  cases h
  simp only [applyConfig]
  cases mi <;> cases qt <;> dsimp only <;> split_ifs <;> simp_all

/-- C10: for every run/stream call, whenever the supplied config explicitly
sets `maxIterations = 0`, `qualityThreshold = 0`, or `minRelevantDocs = 0` —
whatever the other two fields are set to — that zero is silently ignored and
the corresponding factory default (3, 0.6 = 3/5, 3 respectively) is used
instead; in particular an all-zero config leaves the initial state entirely
unchanged. -/
theorem config_zero_ignored (topic : String) (cfg : ResearchConfig) :
    (cfg.maxIterations = some 0 →
      (applyConfig cfg (createInitialState topic)).maxIterations = 3) ∧
    (cfg.qualityThreshold = some 0 →
      (applyConfig cfg (createInitialState topic)).qualityThreshold = mkRat 3 5) ∧
    (cfg.minRelevantDocs = some 0 →
      (applyConfig cfg (createInitialState topic)).minRelevantDocs = 3) ∧
    mkRat 3 5 = 3 / 5 ∧
    applyConfig cfgAllZero (createInitialState topic) = createInitialState topic := by
  refine ⟨?_, ?_, ?_, ?_, rfl⟩
  · intro h
    rw [applyConfig_maxIterations_of_zero cfg _ h]
    rfl
  · intro h
    rw [applyConfig_qualityThreshold_of_zero cfg _ h]
    rfl
  · intro h
    rw [applyConfig_minRelevantDocs_of_zero cfg _ h]
    rfl
  · rw [Rat.mkRat_eq_div]
    norm_num

/-- Witness for C10 at a mixed config: `maxIterations` explicitly zero next
to non-zero overrides of the other two fields — the zero is still ignored. -/
theorem config_zero_ignored_witness :
    (applyConfig
        { maxIterations := some 0, qualityThreshold := some (mkRat 7 10),
          minRelevantDocs := some 5 }
        (createInitialState "abc")).maxIterations = 3 :=
  (config_zero_ignored "abc"
    { maxIterations := some 0, qualityThreshold := some (mkRat 7 10),
      minRelevantDocs := some 5 }).1 rfl

/-- C5 counterexample: a run started with `minRelevantDocs = 0` passed via
the config does not stop after iteration 0 — the zero is ignored (the
effective threshold stays 3), and with collaborators that return nothing the
first decision continues the loop: `needsMoreResearch = true`, `iteration`
becomes 1, and the final iteration is 2, not 0. -/
theorem min_docs_zero_config_counterexample :
    (applyConfig cfgZeroMin (createInitialState "abc")).minRelevantDocs = 3 ∧
    (researchStep oEmpty (applyConfig cfgZeroMin (createInitialState "abc"))).needsMoreResearch
      = true ∧
    (researchStep oEmpty (applyConfig cfgZeroMin (createInitialState "abc"))).iteration = 1 ∧
    (runResearchModel oEmpty (applyConfig cfgZeroMin (createInitialState "abc"))).1.iteration
      = 2 := by
  decide

/-- C5 (amended): when the state's own `minRelevantDocs` field is 0 — which
the config cannot produce, since a zero override is ignored — the first
decision stops the run trivially: `needsMoreResearch = false`, `iteration`
stays 0, and the run finishes after a single query-generation pass. -/
theorem min_docs_zero_stops (o : Oracle) (s : ResearchState)
    (hmin : s.minRelevantDocs = 0) (hit : s.iteration = 0) :
    (researchStep o s).needsMoreResearch = false ∧
    (researchStep o s).iteration = 0 ∧
    (runResearchModel o s).1.iteration = 0 ∧
    (runResearchModel o s).2 = 1 := by
  have h0 : (researchStep o s).needsMoreResearch = false := by
    rcases decideNext_cases (stepGrade o s) with ⟨_, _, h3, _⟩ | ⟨h1, _, _⟩
    · rw [stepGrade_minRelevantDocs, hmin] at h3
      omega
    · exact h1
  have h1 : (researchStep o s).iteration = 0 := by
    rw [researchStep_of_not_needsMore o s h0, hit]
  refine ⟨h0, h1, ?_, ?_⟩
  · simp only [runResearchModel, runAux_succ, h0, Bool.false_eq_true, if_false]
    rw [synthesizeResearch_iteration, h1]
  · simp only [runResearchModel, runAux_succ, h0, Bool.false_eq_true, if_false]

/-- Witness for C5 (amended) on a state whose `minRelevantDocs` field is 0. -/
theorem min_docs_zero_stops_witness :
    sMinZero.minRelevantDocs = 0 ∧
    (researchStep oEmpty sMinZero).needsMoreResearch = false ∧
    (runResearchModel oEmpty sMinZero).1.iteration = 0 :=
  ⟨rfl, (min_docs_zero_stops oEmpty sMinZero rfl rfl).1,
    (min_docs_zero_stops oEmpty sMinZero rfl rfl).2.2.1⟩

/-- C8: with no relevant documents, the synthesizer returns the fixed
apology string and `status = complete`, and its result does not depend on
the model collaborator's response (the model is not consulted). -/
theorem synthesizer_short_circuit (s : ResearchState) (t1 t2 : String)
    (h : s.relevantDocuments = []) :
    synthesizeResearch s t1 = synthesizeResearch s t2 ∧
    (synthesizeResearch s t1).synthesis =
      "Unable to find relevant information on this topic. Please try a different research query." ∧
    (synthesizeResearch s t1).status = Status.complete := by
  have hlen : s.relevantDocuments.length = 0 := by
    rw [h]
    rfl
  simp [synthesizeResearch, hlen]

/-- Witness for C8 on the initial state (empty `relevantDocuments`). -/
theorem synthesizer_short_circuit_witness :
    (createInitialState "abc").relevantDocuments = [] ∧
    (synthesizeResearch (createInitialState "abc") "x").synthesis =
      "Unable to find relevant information on this topic. Please try a different research query." :=
  ⟨rfl, (synthesizer_short_circuit (createInitialState "abc") "x" "y" rfl).2.1⟩

/-- C9: the POST handler rejects exactly the topics that are empty, shorter
than 3 characters, or longer than 500 characters, with an early 400 response
computed before the workflow function is ever applied (the result is
independent of it); on every other topic the workflow is started. -/
theorem topic_validation (topic : String) {α : Type} (run1 run2 : String → α) :
    ((∃ msg, postResearch topic run1 = PostResult.badRequest msg) ↔
      (topic = "" ∨ topic.length < 3 ∨ 500 < topic.length)) ∧
    ((topic = "" ∨ topic.length < 3 ∨ 500 < topic.length) →
      postResearch topic run1 = postResearch topic run2) ∧
    (¬(topic = "" ∨ topic.length < 3 ∨ 500 < topic.length) →
      postResearch topic run1 = PostResult.ok (run1 topic)) := by
  unfold postResearch
  split_ifs with h1 h2 h3
  · exact ⟨⟨fun _ => Or.inl h1, fun _ => ⟨_, rfl⟩⟩, fun _ => rfl,
      fun hcon => absurd (Or.inl h1) hcon⟩
  · exact ⟨⟨fun _ => Or.inr (Or.inl h2), fun _ => ⟨_, rfl⟩⟩, fun _ => rfl,
      fun hcon => absurd (Or.inr (Or.inl h2)) hcon⟩
  · exact ⟨⟨fun _ => Or.inr (Or.inr h3), fun _ => ⟨_, rfl⟩⟩, fun _ => rfl,
      fun hcon => absurd (Or.inr (Or.inr h3)) hcon⟩
  · refine ⟨⟨?_, ?_⟩, ?_, fun _ => rfl⟩
    · rintro ⟨msg, hmsg⟩
      exact hmsg.elim
    · intro hcon
      rcases hcon with h | h | h
      · exact absurd h h1
      · exact absurd h h2
      · exact absurd h h3
    · intro hcon
      rcases hcon with h | h | h
      · exact absurd h h1
      · exact absurd h h2
      · exact absurd h h3

/-- Witness for C9: a valid topic reaches the workflow. -/
theorem topic_validation_witness :
    postResearch "quantum computing" (fun _ => (0 : Nat)) = PostResult.ok 0 :=
  (topic_validation "quantum computing" (fun _ => 0) (fun _ => 1)).2.2 (by decide)

/-! The two branches of the grading node. -/

theorem gradeDocuments_spec (s : ResearchState) (g : SearchResult → GradeOutcome) :
    ((newDocumentsOf s).length = 0 ∧
      (gradeDocuments s g).gradedDocuments = s.gradedDocuments ∧
      (gradeDocuments s g).relevantDocuments = s.relevantDocuments) ∨
    ((newDocumentsOf s).length ≠ 0 ∧
      (gradeDocuments s g).gradedDocuments = s.gradedDocuments ++ gradedBatch s g ∧
      (gradeDocuments s g).relevantDocuments =
        s.relevantDocuments ++ (gradedBatch s g).filter (fun d => d.isRelevant)) := by
  by_cases h : (newDocumentsOf s).length = 0
  · left
    refine ⟨h, ?_, ?_⟩ <;> (simp only [gradeDocuments]; rw [if_pos h])
  · right
    refine ⟨h, ?_, ?_⟩ <;> (simp only [gradeDocuments]; rw [if_neg h])

theorem gradeOne_document (qt : ℚ) (d : SearchResult) (out : GradeOutcome)
    (g2 : GradedDocument) (h : gradeOne qt d out = some g2) : g2.document = d := by
  cases out with
  | threw =>
    simp only [gradeOne, Option.some.injEq] at h
    rw [← h]
    rfl
  | noMatch =>
    exact absurd h (by simp [gradeOne])
  | json score reasoning =>
    simp only [gradeOne, Option.some.injEq] at h
    rw [← h]

/-- C2 counterexample: a grading response containing no JSON object leaves
the document out of `gradedDocuments` entirely (here `gradedDocuments` stays
empty) instead of recording it with the 0.3 fallback; the `if (jsonMatch)`
guard has no else branch. -/
theorem grading_noJson_counterexample :
    docA ∈ sC2.searchResults ∧
    (gradeDocuments sC2 (fun _ => GradeOutcome.noMatch)).gradedDocuments = [] ∧
    (gradeDocuments sC2 (fun _ => GradeOutcome.noMatch)).status = Status.grading := by
  decide

/-- C2 (amended): for a retrieved, not-yet-graded document, if the grading
call throws (model failure or `JSON.parse` failure) the document is not
dropped — it is recorded with `relevanceScore = 0.3`, `reasoning = "Failed
to grade document"`, `isRelevant = false` — and the node always continues
with `status = grading`, never the error status; a response containing no
JSON object substring, however, records nothing for the document: no new
entry for it is added, and if the whole batch lacks JSON, `gradedDocuments`
is left unchanged. -/
theorem grading_fallback (s : ResearchState) (outcome : SearchResult → GradeOutcome)
    (d : SearchResult) (hmem : d ∈ s.searchResults)
    (hnew : d.url ∉ s.gradedDocuments.map (fun g2 => g2.document.url)) :
    (outcome d = GradeOutcome.threw →
      fallbackGrade d ∈ (gradeDocuments s outcome).gradedDocuments) ∧
    (fallbackGrade d).relevanceScore = mkRat 3 10 ∧
    (fallbackGrade d).reasoning = "Failed to grade document" ∧
    (fallbackGrade d).isRelevant = false ∧
    (gradeDocuments s outcome).status = Status.grading ∧
    (outcome d = GradeOutcome.noMatch →
      ∀ x ∈ (gradeDocuments s outcome).gradedDocuments, x.document = d →
        x ∈ s.gradedDocuments) ∧
    ((∀ d2 ∈ s.searchResults, outcome d2 = GradeOutcome.noMatch) →
      (gradeDocuments s outcome).gradedDocuments = s.gradedDocuments) := by
  have hd : d ∈ newDocumentsOf s := by
    simp only [newDocumentsOf, List.mem_filter]
    exact ⟨hmem, by simpa using hnew⟩
  have hne : (newDocumentsOf s).length ≠ 0 := by
    intro h0
    rw [List.length_eq_zero] at h0
    rw [h0] at hd
    exact (List.not_mem_nil d) hd
  refine ⟨?_, rfl, rfl, rfl, gradeDocuments_status s outcome, ?_, ?_⟩
  · intro hthrew
    rcases gradeDocuments_spec s outcome with ⟨h0, _, _⟩ | ⟨_, hg, _⟩
    · exact absurd h0 hne
    · rw [hg]
      refine List.mem_append_right _ ?_
      rw [gradedBatch]
      refine List.mem_filterMap.mpr ⟨d, hd, ?_⟩
      rw [hthrew]
      rfl
  · intro hnm x hx hxd
    rcases gradeDocuments_spec s outcome with ⟨_, hg, _⟩ | ⟨_, hg, _⟩
    · rw [hg] at hx
      exact hx
    · rw [hg] at hx
      rcases List.mem_append.mp hx with h1 | h2
      · exact h1
      · simp only [gradedBatch] at h2
        obtain ⟨d2, _, hgo⟩ := List.mem_filterMap.mp h2
        have hdoc := gradeOne_document _ _ _ _ hgo
        rw [hxd] at hdoc
        rw [← hdoc, hnm] at hgo
        exact absurd hgo (by simp [gradeOne])
  · intro hall
    rcases gradeDocuments_spec s outcome with ⟨_, hg, _⟩ | ⟨_, hg, _⟩
    · exact hg
    · rw [hg]
      have hnil : gradedBatch s outcome = [] := by
        rw [gradedBatch, List.filterMap_eq_nil_iff]
        intro a ha
        have hmem2 : a ∈ s.searchResults := by
          simp only [newDocumentsOf, List.mem_filter] at ha
          exact ha.1
        rw [hall a hmem2]
        rfl
      rw [hnil, List.append_nil]

/-- Witness for C2 (amended): one document, a grading call that throws, the
fallback entry recorded. -/
theorem grading_fallback_witness :
    docA ∈ sC2.searchResults ∧
    fallbackGrade docA ∈ (gradeDocuments sC2 (fun _ => GradeOutcome.threw)).gradedDocuments :=
  ⟨by decide,
    (grading_fallback sC2 (fun _ => GradeOutcome.threw) docA (by decide) (by decide)).1 rfl⟩

/-! URL-deduplication of a single search call. -/

theorem keepFirstByUrl_nodup (l : List SearchResult) :
    (urlsOf (keepFirstByUrl l)).Nodup := by
  have hfst : l.enum.Pairwise (fun p q => p.1 ≠ q.1) := by
    have h := List.nodup_range l.length
    rw [← List.enum_map_fst l] at h
    rw [List.Nodup, List.pairwise_map] at h
    exact h
  have hfil := hfst.filter
    (fun p => decide (l.findIdx (fun r => decide (r.url = p.2.url)) = p.1))
  have hurl :
      (l.enum.filter
          (fun p => decide (l.findIdx (fun r => decide (r.url = p.2.url)) = p.1))).Pairwise
        (fun p q => p.2.url ≠ q.2.url) := by
    refine hfil.imp_of_mem ?_
    intro a b ha hb hne hequrl
    apply hne
    have hpa : l.findIdx (fun r => decide (r.url = a.2.url)) = a.1 := by
      have := List.of_mem_filter ha
      simpa using this
    have hpb : l.findIdx (fun r => decide (r.url = b.2.url)) = b.1 := by
      have := List.of_mem_filter hb
      simpa using this
    rw [← hpa, ← hpb, hequrl]
  rw [keepFirstByUrl, urlsOf, List.Nodup, List.pairwise_map, List.pairwise_map]
  exact hurl

/-- C3 counterexample: with a search backend returning the same document on
every iteration, the accumulated `searchResults` holds three copies of the
same url — `SearchExecutor` deduplicates only within one call, not against
earlier iterations. -/
theorem searchResults_dup_counterexample :
    ((runResearchModel oDup (createInitialState "abc")).1.searchResults.map (fun d => d.url)) =
      ["https://a", "https://a", "https://a"] ∧
    ¬ (urlsOf (runResearchModel oDup (createInitialState "abc")).1.searchResults).Nodup := by
  decide

/-- C3 (amended): the batch a single `searchDocuments` call appends contains
no two documents with equal url; the cross-iteration no-duplicates property
fails (duplicates against earlier iterations are not filtered — history
dedup happens only at grading, by url). -/
theorem search_batch_nodup (s : ResearchState) (w : String → List SearchResult) :
    ∃ batch, (searchDocuments s w).searchResults = s.searchResults ++ batch ∧
      (urlsOf batch).Nodup :=
  ⟨_, searchDocuments_searchResults s w, keepFirstByUrl_nodup _⟩

/-! Status trace of a run. -/

@[simp] theorem stepGen_status (o : Oracle) (s : ResearchState) :
    (stepGen o s).status = Status.generating_queries := rfl

@[simp] theorem stepSearch_status (o : Oracle) (s : ResearchState) :
    (stepSearch o s).status = Status.searching := rfl

@[simp] theorem stepGrade_status (o : Oracle) (s : ResearchState) :
    (stepGrade o s).status = Status.grading := by
  simp [stepGrade]

@[simp] theorem researchStep_status (o : Oracle) (s : ResearchState) :
    (researchStep o s).status = Status.grading := by
  simp [researchStep]

theorem runTraceAux_chain (o : Oracle) :
    ∀ (fuel : Nat) (s : ResearchState),
      (s.status = Status.idle ∨ s.status = Status.grading) →
      List.Chain statusEdge s.status ((runTraceAux o fuel s).map (fun t => t.status)) := by
  intro fuel
  induction fuel with
  | zero =>
    intro s _
    exact List.Chain.nil
  | succ f ih =>
    intro s h
    by_cases hm : (researchStep o s).needsMoreResearch = true
    · simp only [runTraceAux, hm, if_true, List.map_cons, List.chain_cons, stepGen_status,
        stepSearch_status, stepGrade_status, researchStep_status]
      refine ⟨?_, trivial, trivial, trivial, ?_⟩
      · rcases h with h | h <;> rw [h] <;> trivial
      · have hrec := ih (researchStep o s) (Or.inr (researchStep_status o s))
        rwa [researchStep_status] at hrec
    · have hb : (researchStep o s).needsMoreResearch = false := by
        simpa using hm
      simp only [runTraceAux, hb, Bool.false_eq_true, if_false, List.map_cons, List.map_nil,
        List.chain_cons, stepGen_status, stepSearch_status, stepGrade_status,
        researchStep_status, synthesizeResearch_status]
      refine ⟨?_, trivial, trivial, trivial, trivial, List.Chain.nil⟩
      rcases h with h | h <;> rw [h] <;> trivial

theorem runTraceAux_statuses (o : Oracle) :
    ∀ (fuel : Nat) (s : ResearchState), ∀ t ∈ runTraceAux o fuel s,
      t.status = Status.generating_queries ∨ t.status = Status.searching ∨
        t.status = Status.grading ∨ t.status = Status.complete := by
  intro fuel
  induction fuel with
  | zero =>
    intro s t ht
    exact absurd ht (List.not_mem_nil t)
  | succ f ih =>
    intro s t ht
    by_cases hm : (researchStep o s).needsMoreResearch = true
    · simp only [runTraceAux, hm, if_true, List.mem_cons] at ht
      rcases ht with h | h | h | h | h
      · rw [h, stepGen_status]; left; rfl
      · rw [h, stepSearch_status]; right; left; rfl
      · rw [h, stepGrade_status]; right; right; left; rfl
      · rw [h, researchStep_status]; right; right; left; rfl
      · exact ih (researchStep o s) t h
    · have hb : (researchStep o s).needsMoreResearch = false := by
        simpa using hm
      simp only [runTraceAux, hb, Bool.false_eq_true, if_false, List.mem_cons] at ht
      rcases ht with h | h | h | h | h | h
      · rw [h, stepGen_status]; left; rfl
      · rw [h, stepSearch_status]; right; left; rfl
      · rw [h, stepGrade_status]; right; right; left; rfl
      · rw [h, researchStep_status]; right; right; left; rfl
      · rw [h, synthesizeResearch_status]; right; right; right; rfl
      · exact absurd h (List.not_mem_nil t)

/-- C6 counterexample: a run that performs model-backed synthesis (three
relevant documents, synthesis text produced by the model) whose status trace
is generating_queries, searching, grading, grading, complete — the
`synthesizing` status is never visited before `complete`. -/
theorem synthesizing_never_visited_counterexample :
    ((runTraceAux oRich 4 (createInitialState "abc")).map (fun t => t.status)) =
      [Status.generating_queries, Status.searching, Status.grading, Status.grading,
        Status.complete] ∧
    (runResearchModel oRich (createInitialState "abc")).1.synthesis = "report" ∧
    (runResearchModel oRich (createInitialState "abc")).1.relevantDocuments.length = 3 ∧
    Status.synthesizing ∉
      ((runTraceAux oRich 4 (createInitialState "abc")).map (fun t => t.status)) := by
  decide

/-- C6 (amended): on every run the observed statuses step only along idle →
generating_queries → searching → grading → (grading at the decide node) →
(generating_queries | complete); the `synthesizing` status is never set (the
synthesizer jumps straight to `complete`), and no node sets `error`. -/
theorem status_transitions (o : Oracle) (topic : String) (cfg : ResearchConfig) (fuel : Nat) :
    List.Chain statusEdge (applyConfig cfg (createInitialState topic)).status
      ((runTraceAux o fuel (applyConfig cfg (createInitialState topic))).map
        (fun t => t.status)) ∧
    ∀ t ∈ runTraceAux o fuel (applyConfig cfg (createInitialState topic)),
      t.status ≠ Status.synthesizing ∧ t.status ≠ Status.rewriting ∧
        t.status ≠ Status.error := by
  constructor
  · refine runTraceAux_chain o fuel _ (Or.inl ?_)
    rw [applyConfig_status]
    rfl
  · intro t ht
    rcases runTraceAux_statuses o fuel _ t ht with h | h | h | h <;>
      rw [h] <;> exact ⟨by simp, by simp, by simp⟩

/-! The relevance-subset invariant. -/

theorem gradeOne_relevant_score (qt : ℚ) (d : SearchResult) (out : GradeOutcome)
    (g2 : GradedDocument) (h : gradeOne qt d out = some g2) (hr : g2.isRelevant = true)
    (h1 : qt ≤ 1) : qt ≤ g2.relevanceScore := by
  cases out with
  | threw =>
    simp only [gradeOne, Option.some.injEq] at h
    rw [← h] at hr
    exact absurd hr (by simp [fallbackGrade])
  | noMatch =>
    exact absurd h (by simp [gradeOne])
  | json score reasoning =>
    simp only [gradeOne, Option.some.injEq] at h
    rw [← h] at hr ⊢
    have hraw : qt ≤ score.getD 0 := of_decide_eq_true hr
    exact le_min h1 (le_trans hraw (le_max_right 0 _))

theorem RelSub_congr (s s' : ResearchState)
    (hrel : s'.relevantDocuments = s.relevantDocuments)
    (hgr : s'.gradedDocuments = s.gradedDocuments)
    (hqt : s'.qualityThreshold = s.qualityThreshold) (h : RelSub s) : RelSub s' := by
  intro x hx
  rw [hrel] at hx
  obtain ⟨⟨g2, hg2, hp⟩, h2, h3⟩ := h x hx
  exact ⟨⟨g2, by rw [hgr]; exact hg2, hp⟩, h2, by rw [hqt]; exact h3⟩

theorem RelSub_grade (s : ResearchState) (g : SearchResult → GradeOutcome)
    (h1 : s.qualityThreshold ≤ 1) (hR : RelSub s) : RelSub (gradeDocuments s g) := by
  rcases gradeDocuments_spec s g with ⟨_, hg, hr⟩ | ⟨_, hg, hr⟩
  · exact RelSub_congr s _ hr hg (gradeDocuments_qualityThreshold s g) hR
  · intro x hx
    rw [hr] at hx
    rcases List.mem_append.mp hx with hold | hnewm
    · obtain ⟨⟨g2, hg2, hgu⟩, hxr, hxs⟩ := hR x hold
      refine ⟨⟨g2, ?_, hgu⟩, hxr, ?_⟩
      · rw [hg]
        exact List.mem_append_left _ hg2
      · rw [gradeDocuments_qualityThreshold]
        exact hxs
    · have hxf := List.mem_filter.mp hnewm
      have hxb : x ∈ gradedBatch s g := hxf.1
      have hxr : x.isRelevant = true := by simpa using hxf.2
      obtain ⟨d, _, hgo⟩ := List.mem_filterMap.mp hxb
      refine ⟨⟨x, ?_, rfl, hxr⟩, hxr, ?_⟩
      · rw [hg]
        exact List.mem_append_right _ hxb
      · rw [gradeDocuments_qualityThreshold]
        exact gradeOne_relevant_score _ _ _ _ hgo hxr h1

/-- C7: at every point of every run (assuming `qualityThreshold ∈ [0,1]`),
every element of `relevantDocuments` has a matching entry in
`gradedDocuments` with identical url and `isRelevant = true`, and its
clamped `relevanceScore` is at least `qualityThreshold`: the invariant holds
initially, is preserved by every node, and holds in the final run state. -/
theorem relevance_subset (o : Oracle) (topic : String) (cfg : ResearchConfig)
    (h1 : (applyConfig cfg (createInitialState topic)).qualityThreshold ≤ 1) :
    RelSub (applyConfig cfg (createInitialState topic)) ∧
    (∀ s c, RelSub s → RelSub (generateQueries s c)) ∧
    (∀ s w, RelSub s → RelSub (searchDocuments s w)) ∧
    (∀ s g, s.qualityThreshold ≤ 1 → RelSub s → RelSub (gradeDocuments s g)) ∧
    (∀ s, RelSub s → RelSub (decideNext s)) ∧
    (∀ s t, RelSub s → RelSub (synthesizeResearch s t)) ∧
    RelSub (runResearchModel o (applyConfig cfg (createInitialState topic))).1 := by
  have hinit : RelSub (applyConfig cfg (createInitialState topic)) := by
    intro x hx
    rw [applyConfig_relevantDocuments] at hx
    exact absurd hx (List.not_mem_nil x)
  have hstep : ∀ s, (RelSub s ∧ s.qualityThreshold ≤ 1) →
      (RelSub (researchStep o s) ∧ (researchStep o s).qualityThreshold ≤ 1) := by
    rintro s ⟨hR, hq1⟩
    have hR1 : RelSub (stepGen o s) :=
      RelSub_congr s _ (generateQueries_relevantDocuments s _)
        (generateQueries_gradedDocuments s _) (generateQueries_qualityThreshold s _) hR
    have hR2 : RelSub (stepSearch o s) :=
      RelSub_congr (stepGen o s) _ (searchDocuments_relevantDocuments _ _)
        (searchDocuments_gradedDocuments _ _) (searchDocuments_qualityThreshold _ _) hR1
    have hq2 : (stepSearch o s).qualityThreshold ≤ 1 := by
      simpa [stepSearch, stepGen] using hq1
    have hR3 : RelSub (stepGrade o s) := RelSub_grade (stepSearch o s) _ hq2 hR2
    refine ⟨?_, by rwa [researchStep_qualityThreshold]⟩
    exact RelSub_congr (stepGrade o s) _ (decideNext_relevantDocuments _)
      (decideNext_gradedDocuments _) (decideNext_qualityThreshold _) hR3
  have hsynth : ∀ s t, (RelSub s ∧ s.qualityThreshold ≤ 1) →
      (RelSub (synthesizeResearch s t) ∧ (synthesizeResearch s t).qualityThreshold ≤ 1) := by
    rintro s t ⟨hR, hq1⟩
    exact ⟨RelSub_congr s _ (synthesizeResearch_relevantDocuments s t)
      (synthesizeResearch_gradedDocuments s t) (synthesizeResearch_qualityThreshold s t) hR,
      by rwa [synthesizeResearch_qualityThreshold]⟩
  refine ⟨hinit, ?_, ?_, ?_, ?_, ?_, ?_⟩
  · intro s c hR
    exact RelSub_congr s _ (generateQueries_relevantDocuments s c)
      (generateQueries_gradedDocuments s c) (generateQueries_qualityThreshold s c) hR
  · intro s w hR
    exact RelSub_congr s _ (searchDocuments_relevantDocuments s w)
      (searchDocuments_gradedDocuments s w) (searchDocuments_qualityThreshold s w) hR
  · intro s g hq hR
    exact RelSub_grade s g hq hR
  · intro s hR
    exact RelSub_congr s _ (decideNext_relevantDocuments s) (decideNext_gradedDocuments s)
      (decideNext_qualityThreshold s) hR
  · intro s t hR
    exact RelSub_congr s _ (synthesizeResearch_relevantDocuments s t)
      (synthesizeResearch_gradedDocuments s t) (synthesizeResearch_qualityThreshold s t) hR
  · have hrun := runAux_inv o (fun s => RelSub s ∧ s.qualityThreshold ≤ 1) hstep hsynth
      ((applyConfig cfg (createInitialState topic)).maxIterations.toNat + 1)
      (applyConfig cfg (createInitialState topic)) 0 ⟨hinit, h1⟩
    exact hrun.1

/-- Witness for C7 at the default configuration. -/
theorem relevance_subset_witness :
    (applyConfig { } (createInitialState "abc")).qualityThreshold ≤ 1 ∧
    RelSub (runResearchModel oEmpty (applyConfig { } (createInitialState "abc"))).1 :=
  ⟨by decide, (relevance_subset oEmpty "abc" { } (by decide)).2.2.2.2.2.2⟩

/-! Grading coverage. -/

theorem gradeOne_isSome (qt : ℚ) (d : SearchResult) (out : GradeOutcome)
    (h : out ≠ GradeOutcome.noMatch) :
    ∃ g2, gradeOne qt d out = some g2 ∧ g2.document = d := by
  cases out with
  | threw => exact ⟨fallbackGrade d, rfl, rfl⟩
  | noMatch => exact absurd rfl h
  | json score reasoning => exact ⟨_, rfl, rfl⟩

theorem filterMap_gradeOne_urls (qt : ℚ) (g : SearchResult → GradeOutcome) :
    ∀ (l : List SearchResult), (∀ d ∈ l, g d ≠ GradeOutcome.noMatch) →
      (l.filterMap (fun doc => gradeOne qt doc (g doc))).map (fun x => x.document.url) =
        l.map (fun d => d.url) := by
  intro l
  induction l with
  | nil => intro _; rfl
  | cons a t ih =>
    intro h
    obtain ⟨ga, hga, hdoc⟩ := gradeOne_isSome qt a (g a) (h a (List.mem_cons_self a t))
    simp only [List.filterMap_cons, hga, List.map_cons]
    rw [hdoc, ih (fun d hd => h d (List.mem_cons_of_mem a hd))]

theorem gradedBatch_urls (s : ResearchState) (g : SearchResult → GradeOutcome)
    (h : ∀ d ∈ newDocumentsOf s, g d ≠ GradeOutcome.noMatch) :
    gradedUrlsOf (gradedBatch s g) = urlsOf (newDocumentsOf s) := by
  simpa [gradedBatch, gradedUrlsOf, urlsOf] using
    filterMap_gradeOne_urls s.qualityThreshold g (newDocumentsOf s) h

theorem urlsOf_filter (p : String → Bool) :
    ∀ (L : List SearchResult),
      urlsOf (L.filter (fun doc => p doc.url)) = (urlsOf L).filter p := by
  intro L
  induction L with
  | nil => rfl
  | cons a t ih =>
    by_cases h : p a.url
    · simp only [urlsOf, List.filter_cons, h, if_true, List.map_cons] at ih ⊢
      rw [ih]
    · simp only [urlsOf, List.filter_cons, h, Bool.false_eq_true, if_false,
        List.map_cons] at ih ⊢
      rw [ih]

theorem GradeCoverage_congr (s s' : ResearchState)
    (hsr : s'.searchResults = s.searchResults)
    (hgr : s'.gradedDocuments = s.gradedDocuments)
    (h : GradeCoverage s) : GradeCoverage s' := by
  unfold GradeCoverage at h ⊢
  rw [hsr, hgr]
  exact h

theorem GradeCoverage_grade (t : ResearchState) (g : SearchResult → GradeOutcome)
    (S B : List SearchResult)
    (hsr : t.searchResults = S ++ B)
    (hBn : (urlsOf B).Nodup)
    (hsub : ∀ x ∈ t.gradedDocuments, x.document.url ∈ urlsOf S)
    (hcnt : ∀ u ∈ urlsOf S, (gradedUrlsOf t.gradedDocuments).count u = 1)
    (hno : ∀ d ∈ newDocumentsOf t, g d ≠ GradeOutcome.noMatch) :
    GradeCoverage (gradeDocuments t g) := by
  have hnew : newDocumentsOf t =
      t.searchResults.filter (fun doc => decide (doc.url ∉ gradedUrlsOf t.gradedDocuments)) :=
    rfl
  have hurlsplit : urlsOf t.searchResults = urlsOf S ++ urlsOf B := by
    rw [hsr]
    simp [urlsOf]
  rcases gradeDocuments_spec t g with ⟨hlen, hg, _⟩ | ⟨hlen, hg, _⟩
  · have hnil : newDocumentsOf t = [] := List.length_eq_zero.mp hlen
    have hall : ∀ doc ∈ t.searchResults, doc.url ∈ gradedUrlsOf t.gradedDocuments := by
      intro doc hdoc
      by_contra hnot
      have hmemn : doc ∈ newDocumentsOf t := by
        rw [hnew, List.mem_filter]
        exact ⟨hdoc, by simpa using hnot⟩
      rw [hnil] at hmemn
      exact List.not_mem_nil doc hmemn
    constructor
    · intro x hx
      rw [hg] at hx
      rw [gradeDocuments_searchResults, hurlsplit]
      exact List.mem_append_left _ (hsub x hx)
    · intro u hu
      rw [gradeDocuments_searchResults] at hu
      rw [hg]
      rw [hurlsplit] at hu
      rcases List.mem_append.mp hu with huS | huB
      · exact hcnt u huS
      · obtain ⟨d, hd, hdu⟩ := List.mem_map.mp (by simpa [urlsOf] using huB)
        have hds : d ∈ t.searchResults := by
          rw [hsr]
          exact List.mem_append_right _ hd
        have hgu : u ∈ gradedUrlsOf t.gradedDocuments := by
          rw [← hdu]
          exact hall d hds
        obtain ⟨x, hx, hxu⟩ := List.mem_map.mp (by simpa [gradedUrlsOf] using hgu)
        have huS : u ∈ urlsOf S := by
          rw [← hxu]
          exact hsub x hx
        exact hcnt u huS
  · have hbu : gradedUrlsOf (gradedBatch t g) = urlsOf (newDocumentsOf t) :=
      gradedBatch_urls t g hno
    constructor
    · intro x hx
      rw [hg] at hx
      rw [gradeDocuments_searchResults]
      rcases List.mem_append.mp hx with hxg | hxb
      · rw [hurlsplit]
        exact List.mem_append_left _ (hsub x hxg)
      · simp only [gradedBatch] at hxb
        obtain ⟨d, hd, hgo⟩ := List.mem_filterMap.mp hxb
        have hdoc := gradeOne_document _ _ _ _ hgo
        have hds : d ∈ t.searchResults := by
          rw [hnew] at hd
          exact (List.mem_filter.mp hd).1
        rw [hdoc]
        simp only [urlsOf, List.mem_map]
        exact ⟨d, hds, rfl⟩
    · intro u hu
      rw [gradeDocuments_searchResults] at hu
      rw [hg]
      have happ : gradedUrlsOf (t.gradedDocuments ++ gradedBatch t g) =
          gradedUrlsOf t.gradedDocuments ++ gradedUrlsOf (gradedBatch t g) := by
        simp [gradedUrlsOf]
      rw [happ, List.count_append, hbu]
      have hfil : urlsOf (newDocumentsOf t) =
          (urlsOf t.searchResults).filter
            (fun v => decide (v ∉ gradedUrlsOf t.gradedDocuments)) := by
        rw [hnew]
        exact urlsOf_filter (fun v => decide (v ∉ gradedUrlsOf t.gradedDocuments))
          t.searchResults
      rw [hfil]
      by_cases hmem : u ∈ gradedUrlsOf t.gradedDocuments
      · have h0 : ((urlsOf t.searchResults).filter
            (fun v => decide (v ∉ gradedUrlsOf t.gradedDocuments))).count u = 0 := by
          rw [List.count_eq_zero]
          intro hc
          have hcm := List.mem_filter.mp hc
          exact (by simpa using hcm.2 : u ∉ gradedUrlsOf t.gradedDocuments) hmem
        obtain ⟨x, hx, hxu⟩ := List.mem_map.mp (by simpa [gradedUrlsOf] using hmem)
        have huS : u ∈ urlsOf S := by
          rw [← hxu]
          exact hsub x hx
        rw [h0, hcnt u huS]
      · have h0 : (gradedUrlsOf t.gradedDocuments).count u = 0 :=
          List.count_eq_zero.mpr hmem
        rw [h0]
        have hkeep : ((urlsOf t.searchResults).filter
            (fun v => decide (v ∉ gradedUrlsOf t.gradedDocuments))).count u =
            (urlsOf t.searchResults).count u :=
          List.count_filter (by simpa using hmem)
        rw [hkeep]
        have huS : u ∉ urlsOf S := by
          intro hs
          have hc1 := hcnt u hs
          rw [h0] at hc1
          exact absurd hc1 (by decide)
        have hcS : (urlsOf S).count u = 0 := List.count_eq_zero.mpr huS
        have huB : u ∈ urlsOf B := by
          rw [hurlsplit] at hu
          rcases List.mem_append.mp hu with h' | h'
          · exact absurd h' huS
          · exact h'
        have hcB1 : 0 < (urlsOf B).count u := List.count_pos_iff.mpr huB
        have hcB2 : (urlsOf B).count u ≤ 1 := List.nodup_iff_count_le_one.mp hBn u
        have hcB : (urlsOf B).count u = 1 := by omega
        rw [hurlsplit, List.count_append, hcS, hcB]

theorem GradeCoverage_researchStep (o : Oracle)
    (hno : ∀ st d, o.grade st d ≠ GradeOutcome.noMatch)
    (s : ResearchState) (hcov : GradeCoverage s) : GradeCoverage (researchStep o s) := by
  obtain ⟨B, hB, hBn⟩ := search_batch_nodup (stepGen o s) (o.search (stepGen o s))
  have hsr2 : (stepSearch o s).searchResults = s.searchResults ++ B := by
    rw [stepSearch, hB]
    rfl
  have hgr2 : (stepSearch o s).gradedDocuments = s.gradedDocuments := by
    simp [stepSearch, stepGen]
  have hsub : ∀ x ∈ (stepSearch o s).gradedDocuments,
      x.document.url ∈ urlsOf s.searchResults := by
    rw [hgr2]
    exact hcov.1
  have hcnt : ∀ u ∈ urlsOf s.searchResults,
      (gradedUrlsOf (stepSearch o s).gradedDocuments).count u = 1 := by
    rw [hgr2]
    exact hcov.2
  have hmain := GradeCoverage_grade (stepSearch o s) (o.grade (stepSearch o s))
    s.searchResults B hsr2 hBn hsub hcnt (fun d _ => hno (stepSearch o s) d)
  exact GradeCoverage_congr (stepGrade o s) (researchStep o s)
    (decideNext_searchResults _) (decideNext_gradedDocuments _) hmain

/-- C4 counterexample: with a grading collaborator whose responses never
contain a JSON object, a run reaches `status = complete` with a retrieved
document that appears in `searchResults` but zero times (not once) in
`gradedDocuments`. -/
theorem grading_coverage_counterexample :
    (runResearchModel oNoMatch (createInitialState "abc")).1.status = Status.complete ∧
    "https://a" ∈ urlsOf (runResearchModel oNoMatch (createInitialState "abc")).1.searchResults ∧
    (runResearchModel oNoMatch (createInitialState "abc")).1.gradedDocuments = [] ∧
    (gradedUrlsOf
        (runResearchModel oNoMatch (createInitialState "abc")).1.gradedDocuments).count
      "https://a" = 0 := by
  decide

/-- C4 (amended): for every run whose grading responses always either parse
or throw (none lacks a JSON object substring — the case that silently drops
a document), the run completes with every url of `searchResults` appearing
exactly once in `gradedDocuments`. -/
theorem grading_coverage (o : Oracle) (topic : String) (cfg : ResearchConfig)
    (hno : ∀ st d, o.grade st d ≠ GradeOutcome.noMatch) :
    (runResearchModel o (applyConfig cfg (createInitialState topic))).1.status =
      Status.complete ∧
    ∀ u ∈ urlsOf
        (runResearchModel o (applyConfig cfg (createInitialState topic))).1.searchResults,
      (gradedUrlsOf
          (runResearchModel o
            (applyConfig cfg (createInitialState topic))).1.gradedDocuments).count u = 1 := by
  have hinit : GradeCoverage (applyConfig cfg (createInitialState topic)) := by
    constructor
    · intro x hx
      rw [applyConfig_gradedDocuments] at hx
      exact absurd hx (List.not_mem_nil x)
    · intro u hu
      rw [applyConfig_searchResults] at hu
      exact absurd hu (List.not_mem_nil u)
  have hrun := runAux_inv o GradeCoverage (GradeCoverage_researchStep o hno)
    (fun s t h => GradeCoverage_congr s (synthesizeResearch s t)
      (synthesizeResearch_searchResults s t) (synthesizeResearch_gradedDocuments s t) h)
    ((applyConfig cfg (createInitialState topic)).maxIterations.toNat + 1)
    (applyConfig cfg (createInitialState topic)) 0 hinit
  have hfuel :
      ((applyConfig cfg (createInitialState topic)).maxIterations - 1 -
          (applyConfig cfg (createInitialState topic)).iteration).toNat <
        (applyConfig cfg (createInitialState topic)).maxIterations.toNat + 1 := by
    rw [applyConfig_iteration]
    have : (createInitialState topic).iteration = 0 := rfl
    rw [this]
    omega
  have hstat := (runAux_bound o
    ((applyConfig cfg (createInitialState topic)).maxIterations.toNat + 1)
    (applyConfig cfg (createInitialState topic)) 0 hfuel).2.2.1
  exact ⟨hstat, hrun.2⟩

/-- Witness for C4 (amended): the duplicate-returning backend with a grader
that always parses — the accumulated duplicates are graded exactly once. -/
theorem grading_coverage_witness :
    (runResearchModel oDup (applyConfig { } (createInitialState "abc"))).1.status =
      Status.complete ∧
    ∀ u ∈ urlsOf
        (runResearchModel oDup (applyConfig { } (createInitialState "abc"))).1.searchResults,
      (gradedUrlsOf
          (runResearchModel oDup
            (applyConfig { } (createInitialState "abc"))).1.gradedDocuments).count u = 1 :=
  grading_coverage oDup "abc" { } (fun st d => by simp [oDup])

end ResearchAgent
